import Mathlib

/-!
Shallow embedding of the `openapi-ts-client` generator
(src/utils.js, src/generate.js, src/client.js) and proofs about it.

Conventions of the embedding:
* JavaScript exceptions are modelled with `Except GenError`.
* The three module-level mutable registries (`createdTypeNames`, `refMap`,
  `shownWarnings`) are threaded explicitly as state.
* `console.warn` never influences the produced text or control flow, so the
  compiler functions return the ordered list of `warn(key)` calls next to the
  produced type expression; the once-per-key printing gate of `warn` is
  modelled separately by `printWarnings`.
* Machine strings are Lean `String`s; JavaScript truthiness of optional
  strings/lists is modelled explicitly (`""` is falsy, `[]` and `{}` are
  truthy, absent keys are `none`).
* Boolean-valued schema keywords (`deprecated`, `nullable`, ...) are modelled
  as `Bool`, where `true` means present-and-truthy and `false` means absent;
  documents that explicitly write `deprecated: false` are outside the model.
-/

set_option autoImplicit false
set_option maxRecDepth 10000

namespace OpenApiTs

/-! ## ASCII character classes and case mapping (for the lodash.camelcase model) -/

def isAsciiUpper (c : Char) : Bool := 'A' ≤ c && c ≤ 'Z'
def isAsciiLower (c : Char) : Bool := 'a' ≤ c && c ≤ 'z'
def isAsciiDigit (c : Char) : Bool := '0' ≤ c && c ≤ '9'

def lowerChar (c : Char) : Char :=
  if isAsciiUpper c then Char.ofNat (c.toNat + 32) else c

def upperChar (c : Char) : Char :=
  if isAsciiLower c then Char.ofNat (c.toNat - 32) else c

def lowerWord (cs : List Char) : List Char := cs.map lowerChar

/-!
## `lodash.camelcase` (external dependency of src/utils.js)

Modelled for ASCII input: the string is split into words (runs of digits,
runs of lower-case letters, and runs of upper-case letters, where a run of
upper-case letters immediately followed by a lower-case letter donates its
last letter to the following word); every other character is a separator.
The first word is lower-cased, every later word is lower-cased and its first
letter upper-cased, and the words are concatenated.
-/

def wordsAux : Nat → List Char → List (List Char)
  | 0, _ => []
  | _, [] => []
  | Nat.succ n, c :: cs =>
    if isAsciiDigit c then
      ((c :: cs).takeWhile isAsciiDigit) :: wordsAux n ((c :: cs).dropWhile isAsciiDigit)
    else if isAsciiLower c then
      ((c :: cs).takeWhile isAsciiLower) :: wordsAux n ((c :: cs).dropWhile isAsciiLower)
    else if isAsciiUpper c then
      let run := (c :: cs).takeWhile isAsciiUpper
      let rest := (c :: cs).dropWhile isAsciiUpper
      match rest with
      | r :: _ =>
        if isAsciiLower r then
          if run.length = 1 then
            (run ++ rest.takeWhile isAsciiLower) :: wordsAux n (rest.dropWhile isAsciiLower)
          else
            (run.take (run.length - 1)) :: wordsAux n (run.drop (run.length - 1) ++ rest)
        else
          run :: wordsAux n rest
      | [] => [run]
    else
      wordsAux n cs

def words (s : String) : List (List Char) :=
  wordsAux (s.length + 1) s.data

/-- `upperFirst(word)` as used by lodash `camelCase`. -/
def upperFirstChars (cs : List Char) : List Char :=
  match cs with
  | [] => []
  | c :: rest => upperChar c :: rest

def camelCase (s : String) : String :=
  match words s with
  | [] => ""
  | w :: ws =>
    String.mk (lowerWord w ++ (ws.map (fun v => upperFirstChars (lowerWord v))).flatten)

/-! ## src/utils.js -/

/-- `capitalize` (src/utils.js): first character upper-cased, rest unchanged;
the empty string is returned as-is (it is falsy). -/
def capitalize (s : String) : String :=
  match s.data with
  | [] => s
  | c :: cs => String.mk (upperChar c :: cs)

/-- `String.startsWith`, via the underlying character list (kernel-reducible). -/
def startsWithStr (s pre : String) : Bool :=
  pre.data.isPrefixOf s.data

def jsWhitespace (c : Char) : Bool :=
  c = ' ' || c = '\n' || c = '\t' || c = '\r'

/-- `String.prototype.trim`. -/
def trimStr (s : String) : String :=
  String.mk (((s.data.dropWhile jsWhitespace).reverse.dropWhile jsWhitespace).reverse)

/-- `String.prototype.toLowerCase`, for the ASCII strings this generator handles. -/
def toLowerStr (s : String) : String :=
  String.mk (s.data.map lowerChar)

/-- `toPascalCase` (src/utils.js). -/
def toPascalCase (s : String) : String :=
  if s.data.isEmpty then s else capitalize (camelCase s)

/-- `createTypeIdentifier` (src/utils.js); the suffix defaults to `""`. -/
def createTypeIdentifier (s : String) (suffix : String) : String :=
  toPascalCase (s ++ suffix)

/-- `createOperationName` (src/utils.js). -/
def createOperationName (s : String) : String :=
  camelCase s

/-! ## Errors thrown by the generator -/

inductive GenError : Type where
  /-- `Unknown $ref <ref>.` (src/utils.js `getTypeNameFromRef`) -/
  | unknownRef (ref : String)
  /-- `Duplicate type name <typeName> (created from <source>).` (src/utils.js `createTypeName`) -/
  | duplicate (typeName source : String)
  /-- the various `... not yet implemented.` errors -/
  | unsupported (what : String)
  /-- `Unknown scalar type <type>.` (src/generate.js `createScalarType`) -/
  | unknownScalar (type : String)
  /-- `Unknown enum type <type>.` (src/generate.js `createEnumType`) -/
  | unknownEnum (type : String)
  /-- `Only OpenAPI v3 documents are supported.` (src/generate.js `defaultValidate`) -/
  | validation
  /-- a JavaScript `TypeError` from reading a property of `undefined`/`false` -/
  | jsTypeError
  /-- recursion fuel exhausted (artefact of the embedding, not of the source) -/
  | fuel
  deriving DecidableEq, Repr

/-- The registry of already issued type names (module-level `createdTypeNames` set). -/
abbrev Registry := List String

/-- `createTypeName` (src/utils.js): computes the identifier, fails when it was
already reserved, otherwise records it. -/
def createTypeName (s : String) (suffix : String) (reg : Registry) :
    Except GenError (String × Registry) :=
  let typeName := createTypeIdentifier s suffix
  if reg.contains typeName then
    .error (.duplicate typeName s)
  else
    .ok (typeName, typeName :: reg)

end OpenApiTs

namespace OpenApiTs

/-! ## Schema nodes (the recursive input grammar of the Schema Compiler) -/

/-- One schema node, parameterized by the type of nested schema nodes.
`Option` fields model presence of the JSON key; property values are
`Option σ` because the synthetic parameter-group objects built by the
Endpoint Assembler can hold `undefined` property values. -/
structure SchemaF (σ : Type) where
  ref : Option String := none
  allOf : Option (List σ) := none
  anyOf : Option (List σ) := none
  oneOf : Option (List σ) := none
  hasNot : Bool := false
  discriminator : Bool := false
  deprecated : Bool := false
  defaultKw : Bool := false
  readOnly : Bool := false
  writeOnly : Bool := false
  xml : Bool := false
  type : Option String := none
  format : Option String := none
  enum : Option (List String) := none
  nullable : Bool := false
  items : Option σ := none
  properties : Option (List (String × Option σ)) := none
  required : Option (List String) := none
  additionalProperties : Option (Bool ⊕ σ) := none

inductive Schema : Type where
  | mk (f : SchemaF Schema)

/-- The fields of a schema node. -/
def Schema.fs : Schema → SchemaF Schema
  | .mk f => f

/-- JavaScript truthiness of an optional string value (absent and `""` are falsy). -/
def jsTruthyS (o : Option String) : Bool :=
  match o with
  | some s => !s.data.isEmpty
  | none => false

/-- How a missing/present `type` value prints inside an error message
(string interpolation of `undefined`). -/
def typeText (t : Option String) : String :=
  t.getD "undefined"

/-- Number of own enumerable keys of a schema object
(for the `Object.keys(additionalProperties).length === 0` test). Under the
convention of this embedding a `Bool` field counts as a key exactly when `true`. -/
def Schema.keyCount (s : Schema) : Nat :=
  let f := s.fs
  (if f.ref.isSome then 1 else 0) + (if f.allOf.isSome then 1 else 0) +
  (if f.anyOf.isSome then 1 else 0) + (if f.oneOf.isSome then 1 else 0) +
  (if f.hasNot then 1 else 0) + (if f.discriminator then 1 else 0) +
  (if f.deprecated then 1 else 0) + (if f.defaultKw then 1 else 0) +
  (if f.readOnly then 1 else 0) + (if f.writeOnly then 1 else 0) +
  (if f.xml then 1 else 0) + (if f.type.isSome then 1 else 0) +
  (if f.format.isSome then 1 else 0) + (if f.enum.isSome then 1 else 0) +
  (if f.nullable then 1 else 0) + (if f.items.isSome then 1 else 0) +
  (if f.properties.isSome then 1 else 0) + (if f.required.isSome then 1 else 0) +
  (if f.additionalProperties.isSome then 1 else 0)

/-- `isRef` (src/utils.js): `Boolean(schemaOrRef.$ref)`. -/
def isRefSchema (s : Schema) : Bool :=
  jsTruthyS s.fs.ref

/-- The reference table (module-level `refMap`). -/
abbrev RefMap := List (String × String)

/-- `getTypeNameFromRef` (src/utils.js), given the `$ref` string. -/
def getTypeNameFromRef (rm : RefMap) (ref : String) : Except GenError String :=
  match rm.lookup ref with
  | some n => .ok n
  | none => .error (.unknownRef ref)

/-- Result of compiling one schema node: the type expression together with the
ordered list of `warn(key)` calls the compilation performs. -/
abbrev CompileResult := Except GenError (String × List String)

/-- `createTypeUnion` (src/generate.js). -/
def createTypeUnion (types : List String) : String :=
  String.intercalate " | " types

/-- `createNullableType` (src/generate.js); only ever applied to a single string here. -/
def createNullableType (type : String) : String :=
  createTypeUnion [type, "null"]

def nullWrap (nullable : Bool) (type : String) : String :=
  if nullable then createNullableType type else type

/-- Join compiled member results with a combinator (`.join(' & ')` / `.join(' | ')`),
collecting their warn calls in order. -/
def joinTypes (sep : String) (ts : List (String × List String)) : String × List String :=
  (String.intercalate sep (ts.map Prod.fst), (ts.map Prod.snd).flatten)

/-- `createScalarType` (src/generate.js), enum branch.
Enum values are carried as their JavaScript source text. -/
def createEnumType (s : Schema) : Except GenError String :=
  match s.fs.enum with
  | none => .error .jsTypeError
  | some vs =>
    match s.fs.type with
    | some "boolean" | some "integer" | some "number" =>
      .ok (createTypeUnion (if s.fs.nullable then vs ++ ["null"] else vs))
    | some "string" =>
      let wrapped := vs.map (fun v => "\"" ++ v ++ "\"")
      .ok (createTypeUnion (if s.fs.nullable then wrapped ++ ["null"] else wrapped))
    | t => .error (.unknownEnum (typeText t))

/-- `createScalarType` (src/generate.js). -/
def createScalarType (s : Schema) : Except GenError String :=
  if s.fs.enum.isSome then createEnumType s
  else
    match s.fs.type with
    | some "boolean" =>
      .ok (nullWrap s.fs.nullable "boolean")
    | some "integer" =>
      let type := if jsTruthyS s.fs.format then "number /* " ++ s.fs.format.getD "" ++ " */" else "number"
      .ok (nullWrap s.fs.nullable type)
    | some "number" =>
      let type := if jsTruthyS s.fs.format then "number /* " ++ s.fs.format.getD "" ++ " */" else "number"
      .ok (nullWrap s.fs.nullable type)
    | some "string" =>
      let type := if jsTruthyS s.fs.format then "string /* " ++ s.fs.format.getD "" ++ " */" else "string"
      .ok (nullWrap s.fs.nullable type)
    | t => .error (.unknownScalar (typeText t))

mutual

/-- `createType` (src/generate.js). The `fuel` argument bounds the recursion
depth of the embedding (every function of this mutual group consumes one
level, so `fuel` is an upper bound on call-chain length); the source
recursion is bounded by the finite input instead. -/
def createType : Nat → RefMap → Schema → CompileResult
  | 0, _, _ => .error .fuel
  | Nat.succ n, rm, s =>
    if isRefSchema s then
      (getTypeNameFromRef rm (s.fs.ref.getD "")).map (fun name => (name, []))
    else if let some l := s.fs.allOf then
      joinTypes " & " <$> l.mapM (createType n rm)
    else if let some l := s.fs.anyOf then
      joinTypes " | " <$> l.mapM (createType n rm)
    else if s.fs.hasNot then
      .error (.unsupported "not")
    else if let some l := s.fs.oneOf then
      joinTypes " | " <$> l.mapM (createType n rm)
    else if s.fs.discriminator then
      .error (.unsupported "discriminator")
    else
      let warnKs :=
        (if s.fs.deprecated then ["deprecated"] else []) ++
        (if s.fs.defaultKw then ["default"] else [])
      (createTypeSwitch n rm s).map (fun p => (p.1, warnKs ++ p.2))

/-- The `switch (schema.type)` statement at the end of `createType`
(src/generate.js): `array` and `object` dispatch to their builders, every
other value (including an absent `type`) falls through to `createScalarType`. -/
def createTypeSwitch : Nat → RefMap → Schema → CompileResult
  | 0, _, _ => .error .fuel
  | Nat.succ n, rm, s =>
    match s.fs.type with
    | some "array" => createArrayType n rm s
    | some "object" => createObjectType n rm s
    | _ => (createScalarType s).map (fun t => (t, []))

/-- `createArrayType` (src/generate.js). A missing `items` key makes the source
read `undefined.$ref` and crash, modelled by `jsTypeError`. -/
def createArrayType : Nat → RefMap → Schema → CompileResult
  | 0, _, _ => .error .fuel
  | Nat.succ n, rm, s =>
    match s.fs.items with
    | none => .error .jsTypeError
    | some it =>
      (createType n rm it).map (fun p => (nullWrap s.fs.nullable ("Array<" ++ p.1 ++ ">"), p.2))

/-- `createObjectTypeProperty` (src/generate.js). An `undefined` property value
makes the source read `undefined.readOnly` and crash (`jsTypeError`). -/
def createObjectTypeProperty : Nat → RefMap → String → Option Schema → Bool → CompileResult
  | 0, _, _, _, _ => .error .fuel
  | Nat.succ n, rm, name, psch, required =>
    match psch with
    | none => .error .jsTypeError
    | some p =>
      let warnKs :=
        (if p.fs.readOnly then ["readOnly"] else []) ++
        (if p.fs.writeOnly then ["writeOnly"] else []) ++
        (if p.fs.xml then ["xml"] else [])
      (createType n rm p).map
        (fun q => ("\"" ++ name ++ "\"" ++ (if required then "" else "?") ++ ": " ++ q.1,
                   warnKs ++ q.2))

/-- `createObjectType` (src/generate.js). Member strings are assembled with
`['{', properties, '}'].join('\n')`, whose middle element stringifies the
member array joined by commas. -/
def createObjectType : Nat → RefMap → Schema → CompileResult
  | 0, _, _ => .error .fuel
  | Nat.succ n, rm, s =>
    let membersE : Except GenError (List (String × List String)) :=
      match s.fs.properties with
      | none => .ok []
      | some props =>
        let requiredL := s.fs.required.getD []
        props.mapM (fun p => createObjectTypeProperty n rm p.1 p.2 (requiredL.contains p.1))
    membersE.bind (fun members =>
      match s.fs.additionalProperties with
      | none =>
        .ok (nullWrap s.fs.nullable
              ("\x7b" ++ "\n" ++ String.intercalate "," (members.map Prod.fst) ++ "\n" ++ "\x7d"),
             (members.map Prod.snd).flatten)
      | some ap =>
        if members.isEmpty then
          match ap with
          | .inl _ =>
            -- `additionalProperties === true` hits the first disjunct;
            -- `Object.keys(false)` is `[]`, so `false` hits the second one.
            .ok (nullWrap s.fs.nullable "Record<string, unknown>", [])
          | .inr sc =>
            if sc.keyCount = 0 then
              .ok (nullWrap s.fs.nullable "Record<string, unknown>", [])
            else
              (createType n rm sc).map
                (fun p => (nullWrap s.fs.nullable ("Record<string, " ++ p.1 ++ ">"), p.2))
        else
          let withIndexE : Except GenError (List (String × List String)) :=
            match ap with
            | .inl true => .ok (members ++ [("[key: string]: unknown", [])])
            | .inl false =>
              -- `createType(false)`: every property read on `false` yields
              -- `undefined`, so the call falls through to the scalar default
              -- and throws `Unknown scalar type undefined.`
              .error (.unknownScalar "undefined")
            | .inr sc =>
              (createType n rm sc).map (fun p => members ++ [("[key: string]: " ++ p.1, p.2)])
          withIndexE.map (fun ms =>
            (nullWrap s.fs.nullable
              ("\x7b" ++ "\n" ++ String.intercalate "," (ms.map Prod.fst) ++ "\n" ++ "\x7d"),
             (ms.map Prod.snd).flatten)))

end

end OpenApiTs

namespace OpenApiTs

/-! ## JavaScript object-assignment semantics

`obj[k] = v` keeps the original position of an existing key and replaces its
value, and appends a fresh key at the end. -/

def objSet {α : Type} (l : List (String × α)) (k : String) (v : α) : List (String × α) :=
  match l with
  | [] => [(k, v)]
  | (k', v') :: rest => if k' = k then (k, v) :: rest else (k', v') :: objSet rest k v

/-! ## The document model (the shapes generate.js reads) -/

structure Param where
  name : String
  location : String
  required : Option Bool := none
  schema : Option Schema := none

structure MediaObject where
  schema : Option Schema := none

/-- A request-body-like object: either it has a `content` key mapping media
types to media objects, or it is used as a schema itself (`getRequestBodySchemas`). -/
inductive RequestBodyLike : Type where
  | withContent (content : List (String × MediaObject))
  | plain (s : Schema)

structure ResponseObject where
  content : Option (List (String × MediaObject)) := none

structure Operation where
  summary : Option String := none
  description : Option String := none
  operationId : Option String := none
  parameters : Option (List Param) := none
  requestBody : Option RequestBodyLike := none
  responses : Option (List (String × ResponseObject)) := none

structure PathItem where
  description : Option String := none
  summary : Option String := none
  isRefItem : Bool := false
  hasServers : Bool := false
  parameters : Option (List Param) := none
  ops : List (String × Operation) := []

structure Contact where
  name : Option String := none
  email : Option String := none
  url : Option String := none

structure License where
  name : Option String := none

structure Info where
  title : Option String := none
  description : Option String := none
  termsOfService : Option String := none
  contact : Option Contact := none
  license : Option License := none
  version : Option String := none

structure Server where
  url : String

/-- `components.parameters` and `components.responses` are recorded by name
only: `buildRefMap` reads just their keys, and their presence makes
`createTypesFromParameters` / `createTypesFromResponses` throw before any
entry is read. -/
structure Components where
  schemas : Option (List (String × Schema)) := none
  parameters : Option (List String) := none
  requestBodies : Option (List (String × RequestBodyLike)) := none
  responses : Option (List String) := none

structure OpenApiDocument where
  openapi : Option String := none
  info : Info := {}
  servers : Option (List Server) := none
  paths : List (String × PathItem) := []
  components : Option Components := none

/-- The module-level mutable state of utils.js/generate.js, threaded explicitly. -/
structure GenState where
  createdTypeNames : Registry := []
  refMap : RefMap := []
  shownWarnings : List String := []

def GenState.fresh : GenState := {}

/-! ## src/utils.js: buildRefMap -/

def addRefEntries (sec : String) (names : List String) (rm : RefMap) : RefMap :=
  names.foldl
    (fun acc n => objSet acc ("#/components/" ++ sec ++ "/" ++ n) (createTypeIdentifier n "")) rm

/-- `buildRefMap` (src/utils.js): iterates the four component sections in
order and records `#/components/<key>/<name> ↦ createTypeIdentifier(name)`.
It does not touch the `createdTypeNames` registry. -/
def buildRefMap (doc : OpenApiDocument) (rm : RefMap) : RefMap :=
  match doc.components with
  | none => rm
  | some comps =>
    let rm1 := addRefEntries "schemas" ((comps.schemas.getD []).map Prod.fst) rm
    let rm2 := addRefEntries "parameters" (comps.parameters.getD []) rm1
    let rm3 := addRefEntries "requestBodies" ((comps.requestBodies.getD []).map Prod.fst) rm2
    addRefEntries "responses" (comps.responses.getD []) rm3

/-! ## src/generate.js: warn / shownWarnings -/

/-- The observable effect of the `warn` gate: given the ordered keys of all
`warn(key)` calls of a run and the initial `shownWarnings` set, the keys that
actually get printed (each new key is printed once and then remembered). -/
def printWarnings : List String → List String → List String
  | [], _ => []
  | k :: ks, shown =>
    if shown.contains k then printWarnings ks shown
    else k :: printWarnings ks (k :: shown)

/-! ## src/generate.js: document emitter pieces -/

def jsFilterTruthy (l : List (Option String)) : List String :=
  l.filterMap (fun o =>
    match o with
    | some s => if s.data.isEmpty then none else some s
    | none => none)

/-- `createComment` (src/generate.js), for the list-argument uses. -/
def createComment (lines : List String) : String :=
  "/**" ++ "\n" ++ String.intercalate "\n" (lines.map (fun s => " * " ++ trimStr s)) ++ "\n" ++ " */"

/-- `createTypeAlias` (src/generate.js). -/
def createTypeAlias (name typeDefinition : String) : String :=
  "export type " ++ name ++ " = " ++ typeDefinition

/-- `createNamespace` (src/generate.js). -/
def createNamespace (name : String) (children : List String) : String :=
  "export namespace " ++ name ++ " \x7b\n    " ++ String.intercalate "\n" children ++ "\n  \x7d"

/-- `createInfoHeader` (src/generate.js). Interpolating an absent
`version`/`license.name` prints `undefined`; falsy entries are filtered. -/
def createInfoHeader (doc : OpenApiDocument) : String :=
  let i := doc.info
  createComment (jsFilterTruthy
    ([i.title, some "\n"]
      ++ (if jsTruthyS i.description then [i.description, some "\n"] else [])
      ++ [if jsTruthyS i.termsOfService
            then some ("Terms of service: " ++ i.termsOfService.getD "") else none]
      ++ [i.contact.map (fun c =>
            "Contact: " ++ String.intercalate ", " (jsFilterTruthy [c.name, c.email, c.url]))]
      ++ [i.license.map (fun l => "License: " ++ l.name.getD "undefined")]
      ++ [some ("Version: " ++ i.version.getD "undefined")]))

/-- `createType` applied to a possibly-absent schema; the source would read
`undefined.$ref` and crash. -/
def createTypeOpt (fuel : Nat) (rm : RefMap) (o : Option Schema) : CompileResult :=
  match o with
  | none => .error .jsTypeError
  | some s => createType fuel rm s

/-- `getRequestBodySchemas` (src/generate.js). -/
def getRequestBodySchemas (maybeSchema : RequestBodyLike) : List (Option Schema) :=
  match maybeSchema with
  | .withContent content => content.map (fun c => c.2.schema)
  | .plain s => [some s]

/-- `createTypesFromSchemas` (src/generate.js), returning the
`(typeName, typeDefinition)` pairs in order together with the grown registry. -/
def createTypesFromSchemasGo (fuel : Nat) (rm : RefMap) :
    List (String × Schema) → Registry → Except GenError (List (String × String) × Registry)
  | [], reg => .ok ([], reg)
  | (name, schema) :: rest, reg => do
    let (typeName, reg') ← createTypeName name "" reg
    let td ← createType fuel rm schema
    let (tail, reg'') ← createTypesFromSchemasGo fuel rm rest reg'
    .ok ((typeName, td.1) :: tail, reg'')

def createTypesFromSchemas (fuel : Nat) (rm : RefMap) (doc : OpenApiDocument) (reg : Registry) :
    Except GenError (List (String × String) × Registry) :=
  match doc.components with
  | none => .ok ([], reg)
  | some comps => createTypesFromSchemasGo fuel rm (comps.schemas.getD []) reg

/-- `createTypesFromParameters` (src/generate.js): throws when the component
section is present (even empty, which is truthy). -/
def createTypesFromParameters (doc : OpenApiDocument) : Except GenError Unit :=
  match doc.components with
  | none => .ok ()
  | some comps =>
    if comps.parameters.isSome then .error (.unsupported "components.parameters") else .ok ()

/-- `createTypesFromRequestBodies` (src/generate.js): only the first media-type
schema is processed, and the alias name carries the `RequestBody` suffix. -/
def createTypesFromRequestBodiesGo (fuel : Nat) (rm : RefMap) :
    List (String × RequestBodyLike) → Registry →
    Except GenError (List (String × String) × Registry)
  | [], reg => .ok ([], reg)
  | (name, component) :: rest, reg => do
    -- `const [schema] = schemas`: an empty list gives `undefined`, like an
    -- absent media-type schema, so the two layers of absence collapse
    let schema := ((getRequestBodySchemas component).head?).join
    let (typeName, reg') ← createTypeName name "RequestBody" reg
    let td ← createTypeOpt fuel rm schema
    let (tail, reg'') ← createTypesFromRequestBodiesGo fuel rm rest reg'
    .ok ((typeName, td.1) :: tail, reg'')

def createTypesFromRequestBodies (fuel : Nat) (rm : RefMap) (doc : OpenApiDocument)
    (reg : Registry) : Except GenError (List (String × String) × Registry) :=
  match doc.components with
  | none => .ok ([], reg)
  | some comps => createTypesFromRequestBodiesGo fuel rm (comps.requestBodies.getD []) reg

/-- `createTypesFromResponses` (src/generate.js). -/
def createTypesFromResponses (doc : OpenApiDocument) : Except GenError Unit :=
  match doc.components with
  | none => .ok ()
  | some comps =>
    if comps.responses.isSome then .error (.unsupported "components.responses") else .ok ()

end OpenApiTs

namespace OpenApiTs

/-! ## src/generate.js: endpoint assembler -/

def HTTP_METHODS : List String := ["get", "delete", "patch", "post", "put"]

/-- One location's accumulated parameter group:
`{ type: 'object', required: [...], properties: {...} }`. -/
structure LocGroup where
  required : List String := []
  properties : List (String × Option Schema) := []

/-- Processing one parameter of `allParameters`: assign
`properties[parameter.name] = parameter.schema` and push the name onto
`required` unless the parameter carries an explicit `required: false`. -/
def addParam (groups : List (String × LocGroup)) (p : Param) : List (String × LocGroup) :=
  let g := ((groups.lookup p.location).getD {})
  let g' : LocGroup :=
    { properties := objSet g.properties p.name p.schema
      required := if p.required = some false then g.required else g.required ++ [p.name] }
  objSet groups p.location g'

/-- `parametersByLocation` built over the concatenated parameter list. -/
def buildGroups (ps : List Param) : List (String × LocGroup) :=
  ps.foldl addParam []

/-- The schema object a location group is compiled as. -/
def groupSchema (g : LocGroup) : Schema :=
  .mk { type := some "object", required := some g.required, properties := some g.properties }

/-- The success members of a responses map: entries whose status code starts
with `2`; an entry with no content contributes `'void'`, an entry with content
contributes one compiled type per media-type schema. -/
def successResponsesOf (fuel : Nat) (rm : RefMap) (responses : List (String × ResponseObject)) :
    Except GenError (List (String × List String)) :=
  ((responses.filter (fun p => startsWithStr p.1 "2")).mapM
      (fun (p : String × ResponseObject) =>
        (match p.2.content with
          | none => pure [("void", [])]
          | some cs => cs.mapM (fun c => createTypeOpt fuel rm c.2.schema) :
          Except GenError (List (String × List String))))).map List.flatten

/-- The error members: status code `default` or starting with `4` or `5`;
the no-content placeholder is `'unknown'`. -/
def errorResponsesOf (fuel : Nat) (rm : RefMap) (responses : List (String × ResponseObject)) :
    Except GenError (List (String × List String)) :=
  ((responses.filter (fun p =>
      p.1 = "default" || startsWithStr p.1 "4" || startsWithStr p.1 "5")).mapM
      (fun (p : String × ResponseObject) =>
        (match p.2.content with
          | none => pure [("unknown", [])]
          | some cs => cs.mapM (fun c => createTypeOpt fuel rm c.2.schema) :
          Except GenError (List (String × List String))))).map List.flatten

/-- The `Response.Success` type definition of an operation:
`createTypeUnion([...(successResponses.length ? successResponses : ['void'])])`. -/
def successUnionOf (fuel : Nat) (rm : RefMap) (responses : List (String × ResponseObject)) :
    Except GenError String :=
  (successResponsesOf fuel rm responses).map (fun succ =>
    createTypeUnion (if succ.isEmpty then ["void"] else succ.map Prod.fst))

/-- The `Response.Error` type definition of an operation. -/
def errorUnionOf (fuel : Nat) (rm : RefMap) (responses : List (String × ResponseObject)) :
    Except GenError String :=
  (errorResponsesOf fuel rm responses).map (fun err =>
    createTypeUnion (if err.isEmpty then ["unknown"] else err.map Prod.fst))

/-- The operation name: the declared operation id when present (and truthy),
else the `${method}${path}` fallback. -/
def opNameOf (op : Operation) (method path : String) : String :=
  match op.operationId with
  | some o => if o.data.isEmpty then method ++ path else o
  | none => method ++ path

/-- The data handed to the `createEndpoint` hook. `parameters` is
`parameterNamesByLocation`, whose values are `Object.keys` of the group
schema object, i.e. always `["type", "required", "properties"]`. -/
structure EndpointDescriptor where
  operationName : String
  method : String
  pathTemplate : String
  parameters : List (String × List String)
  hasRequestBody : Bool
  headers : List (String × String)
  returnType : String
  typeName : String

/-- The body of the per-operation loop of `createEndpoints` (src/generate.js):
produces the pushed statements (comment, namespace, endpoint text) and the
grown registry. -/
def processOperation (fuel : Nat) (rm : RefMap) (hook : EndpointDescriptor → String)
    (path : String) (sharedParameters : List Param) (method : String) (op : Operation)
    (reg : Registry) : Except GenError (List String × Registry) := do
  let opName := opNameOf op method path
  let operationName := createOperationName opName
  let (typeName, reg') ← createTypeName opName "" reg
  let comments :=
    if jsTruthyS op.description || jsTruthyS op.summary then
      [createComment (jsFilterTruthy [op.description, op.summary])]
    else []
  let returnType := "json"
  let allParameters := sharedParameters ++ op.parameters.getD []
  let parametersByLocation := buildGroups allParameters
  let paramAliases ← parametersByLocation.mapM (fun lg =>
    (createType fuel rm (groupSchema lg.2)).map (fun td =>
      createTypeAlias (createTypeIdentifier (lg.1 ++ "Parameters") "") td.1))
  let responseTypeName := createTypeIdentifier "Response" ""
  let responseNs ←
    match op.responses with
    | none => pure ([] : List String)
    | some responses => do
      let successTypeDefinition ← successUnionOf fuel rm responses
      let errorTypeDefinition ← errorUnionOf fuel rm responses
      pure [createNamespace responseTypeName
        [createTypeAlias "Success" successTypeDefinition,
         createTypeAlias "Error" errorTypeDefinition]]
  let (rbAliases, headers) ←
    match op.requestBody with
    | none => pure (([] : List String), ([] : List (String × String)))
    | some rb => do
      let requestBodies ← (getRequestBodySchemas rb).mapM (createTypeOpt fuel rm)
      let tn := createTypeIdentifier "RequestBody" ""
      pure ([createTypeAlias tn (createTypeUnion (requestBodies.map Prod.fst))],
            [("Content-Type", "application/json")])
  let nsStatement := createNamespace typeName (paramAliases ++ responseNs ++ rbAliases)
  let parameterNamesByLocation :=
    parametersByLocation.map (fun lg => (lg.1, ["type", "required", "properties"]))
  let endpointStatement := hook
    { operationName, method, pathTemplate := path, parameters := parameterNamesByLocation,
      hasRequestBody := op.requestBody.isSome, headers, returnType, typeName }
  .ok (comments ++ [nsStatement, endpointStatement], reg')

def processOperations (fuel : Nat) (rm : RefMap) (hook : EndpointDescriptor → String)
    (path : String) (sharedParameters : List Param) :
    List (String × Operation) → Registry → Except GenError (List String × Registry)
  | [], reg => .ok ([], reg)
  | (method, op) :: rest, reg => do
    let (stmts, reg') ← processOperation fuel rm hook path sharedParameters method op reg
    let (tail, reg'') ← processOperations fuel rm hook path sharedParameters rest reg'
    .ok (stmts ++ tail, reg'')

/-- The per-path-item body of `createEndpoints`. -/
def processPathItem (fuel : Nat) (rm : RefMap) (hook : EndpointDescriptor → String)
    (path : String) (item : PathItem) (reg : Registry) :
    Except GenError (List String × Registry) := do
  let comments :=
    if jsTruthyS item.description || jsTruthyS item.summary then
      [createComment (jsFilterTruthy [item.description, item.summary])]
    else []
  if item.isRefItem then
    .error (.unsupported "path item $ref")
  else if item.hasServers then
    .error (.unsupported "per-endpoint servers")
  else do
    let sharedParameters := item.parameters.getD []
    let (stmts, reg') ← processOperations fuel rm hook path sharedParameters
      (item.ops.filter (fun mo => HTTP_METHODS.contains mo.1)) reg
    .ok (comments ++ stmts, reg')

def createEndpointsGo (fuel : Nat) (rm : RefMap) (hook : EndpointDescriptor → String) :
    List (String × PathItem) → Registry → Except GenError (List String × Registry)
  | [], reg => .ok ([], reg)
  | (path, item) :: rest, reg => do
    let (stmts, reg') ← processPathItem fuel rm hook path item reg
    let (tail, reg'') ← createEndpointsGo fuel rm hook rest reg'
    .ok (stmts ++ tail, reg'')

/-- `createEndpoints` (src/generate.js). -/
def createEndpoints (fuel : Nat) (rm : RefMap) (hook : EndpointDescriptor → String)
    (doc : OpenApiDocument) (reg : Registry) : Except GenError (List String × Registry) :=
  createEndpointsGo fuel rm hook doc.paths reg

end OpenApiTs

namespace OpenApiTs

/-! ## src/client.js: the default hooks

The fixed runtime boilerplate (the `HttpError` class, `createUrl` and the
shared `request` function) is template text with no compiling logic; the spec
places it out of scope, and no claim inspects it, so those three constants are
abbreviated to their header lines here. All selection logic (base-URL choice,
parameter lists, query-versus-mutation hook) is modelled in full. -/

/-- `createImports` (src/client.js). -/
def createImports : String :=
  String.intercalate "\n"
    ["/* eslint-disable @typescript-eslint/no-namespace */",
     "",
     "import \x7b useMutation, useQuery \x7d from \"react-query\"",
     "import type \x7b UseMutationOptions, UseMutationResult, UseQueryOptions, UseQueryResult \x7d from \"react-query\""]

/-- `getServerUrl` (src/utils.js). -/
def getServerUrl (server : Server) : String :=
  server.url

def httpErrorClassText : String :=
  "export class HttpError extends Error \x7b /* fixed boilerplate */ \x7d"

def createUrlText : String :=
  "function createUrl(/* fixed boilerplate */) \x7b \x7d"

def requestFnText : String :=
  "export async function request(/* fixed boilerplate */) \x7b \x7d"

/-- `createRequestFunction` (src/client.js): base-URL selection plus the fixed
runtime text. -/
def createRequestFunction (doc : OpenApiDocument) (customBaseUrl : Option String) : String :=
  let baseUrl :=
    if jsTruthyS customBaseUrl then "\"" ++ customBaseUrl.getD "" ++ "\""
    else
      match doc.servers with
      | some (s :: _) => "\"" ++ getServerUrl s ++ "\""
      | _ => "process.env.NEXT_PUBLIC_API_BASE_URL"
  String.intercalate "\n\n"
    ["const defaultBaseUrl = " ++ baseUrl,
     "export \x7b defaultBaseUrl as baseUrl \x7d",
     httpErrorClassText,
     createUrlText,
     requestFnText]

/-- `JSON.stringify` of a plain string. -/
def jsonStringifyStr (s : String) : String :=
  "\"" ++ s ++ "\""

/-- `JSON.stringify` of the headers record. -/
def jsonStringifyHeaders (hs : List (String × String)) : String :=
  "\x7b" ++ String.intercalate "," (hs.map (fun h => "\"" ++ h.1 ++ "\":\"" ++ h.2 ++ "\"")) ++ "\x7d"

def lbrace : Char := Char.ofNat 123
def rbrace : Char := Char.ofNat 125

/-- `pathTemplate.replace(/{(.+?)}/g, '${encodeURIComponent(pathParams.$1)}')`:
each non-empty brace-delimited placeholder (lazily matched) is replaced. -/
def replacePathParamsAux : Nat → List Char → List Char
  | 0, cs => cs
  | _, [] => []
  | Nat.succ n, c :: cs =>
    if c = lbrace then
      let inner := cs.takeWhile (fun d => d ≠ rbrace)
      let rest := cs.dropWhile (fun d => d ≠ rbrace)
      match rest, inner with
      | _ :: after, _ :: _ =>
        ("$".data ++ [lbrace] ++ "encodeURIComponent(pathParams.".data ++ inner ++ ")".data
          ++ [rbrace]) ++ replacePathParamsAux n after
      | _, _ => c :: replacePathParamsAux n cs
    else
      c :: replacePathParamsAux n cs

def replacePathParams (s : String) : String :=
  String.mk (replacePathParamsAux (s.length + 1) s.data)

/-- `createEndpoint` (src/client.js): one exported request function plus one
hook per operation. The template whitespace is not reproduced exactly; every
interpolated fragment and all selection logic is. -/
def createEndpoint (d : EndpointDescriptor) : String :=
  let hasPath := (d.parameters.lookup "path").isSome
  let hasQuery := (d.parameters.lookup "query").isSome
  let path := if hasPath then replacePathParams d.pathTemplate else d.pathTemplate
  let params :=
    (if hasPath then ["pathParams: " ++ d.typeName ++ ".PathParameters"] else []) ++
    (if hasQuery then ["queryParams: " ++ d.typeName ++ ".QueryParameters"] else []) ++
    (if d.hasRequestBody then ["body: " ++ d.typeName ++ ".RequestBody"] else [])
  let untypedParams :=
    (if hasPath then ["pathParams"] else []) ++
    (if hasQuery then ["queryParams"] else []) ++
    (if d.hasRequestBody then ["body"] else [])
  let mutationFnParams :=
    (if hasPath then [d.typeName ++ ".PathParameters"] else []) ++
    (if hasQuery then [d.typeName ++ ".QueryParameters"] else []) ++
    (if d.hasRequestBody then [d.typeName ++ ".RequestBody"] else []) ++
    ["RequestOptions<" ++ d.typeName ++ ".Response.Success>"]
  let isQueryHook := toLowerStr d.method = "get"
  let hook := if isQueryHook then "useQuery" else "useMutation"
  let requestOptionsParam := "requestOptions?: RequestOptions<" ++ d.typeName ++ ".Response.Success>"
  let queryHookParams :=
    params ++
    ["options?: UseQueryOptions<" ++ d.typeName ++ ".Response.Success, " ++ d.typeName
       ++ ".Response.Error>",
     requestOptionsParam]
  let hooksCacheKey :=
    (if hasPath then ["pathParams"] else []) ++ (if hasQuery then ["queryParams"] else [])
  let fnArgs :=
    if isQueryHook then String.intercalate ", " (params ++ [requestOptionsParam])
    else
      "[" ++ String.intercalate ", " (untypedParams ++ ["requestOptions"]) ++ "]: [" ++
        String.intercalate ", " (params ++ [requestOptionsParam]) ++ "]"
  let fnText :=
    "export async function " ++ d.operationName ++ "(" ++ fnArgs ++ "): Promise<" ++
    d.typeName ++ ".Response.Success> \x7b\n" ++
    "      return request(\x7b\n" ++
    "        path: `" ++ path ++ "`,\n" ++
    -- generate.js never forwards a per-endpoint baseUrl, so
    -- `JSON.stringify(baseUrl)` interpolates as `undefined`
    "        baseUrl: undefined,\n" ++
    "        query: " ++ (if hasQuery then "queryParams" else "undefined") ++ ",\n" ++
    "        options: \x7b\n" ++
    "          method: " ++ jsonStringifyStr d.method ++ ",\n" ++
    "          body: " ++ (if d.hasRequestBody then "JSON.stringify(body)" else "undefined")
      ++ ",\n" ++
    "          headers: " ++ jsonStringifyHeaders d.headers ++ ",\n" ++
    "        \x7d,\n" ++
    "        returnType: " ++ jsonStringifyStr d.returnType ++ ",\n" ++
    "        hooks: requestOptions?.hooks,\n" ++
    "        token: requestOptions?.token,\n" ++
    "      \x7d)\n" ++
    "    \x7d"
  let hookText :=
    if isQueryHook then
      "export function use" ++ capitalize d.operationName ++ "(" ++
      String.intercalate ", " queryHookParams ++ "): UseQueryResult<" ++ d.typeName ++
      ".Response.Success, " ++ d.typeName ++ ".Response.Error> \x7b\n" ++
      "      return " ++ hook ++ "([" ++
      String.intercalate ", " (["\"" ++ d.operationName ++ "\""] ++ hooksCacheKey) ++
      "], () => " ++ d.operationName ++ "(" ++
      String.intercalate ", " (hooksCacheKey ++ ["requestOptions"]) ++ "), options)\n" ++
      "      \x7d"
    else
      "export function use" ++ capitalize d.operationName ++ "(options?: UseMutationOptions<\n" ++
      "          " ++ d.typeName ++ ".Response.Success,\n" ++
      "          " ++ d.typeName ++ ".Response.Error,\n" ++
      "          [" ++ String.intercalate ", " mutationFnParams ++ "],\n" ++
      "          unknown\n" ++
      "          >): UseMutationResult<\n" ++
      "          " ++ d.typeName ++ ".Response.Success,\n" ++
      "          " ++ d.typeName ++ ".Response.Error,\n" ++
      "          [" ++ String.intercalate ", " mutationFnParams ++ "],\n" ++
      "          unknown\n" ++
      "        > \x7b\n" ++
      "        return " ++ hook ++ "(" ++ d.operationName ++ ", options)\n" ++
      "        \x7d"
  String.intercalate "\n\n" [fnText, hookText]

/-! ## src/generate.js: generate -/

/-- `defaultValidate` (src/generate.js). -/
def defaultValidate (doc : OpenApiDocument) : Except GenError Unit :=
  match doc.openapi with
  | some v => if startsWithStr v "3" then .ok () else .error .validation
  | none => .error .validation

/-- `generate` (src/generate.js) with the default hooks. `defaultPreProcess`
is the identity on OpenAPI v3 documents (the Swagger 2.0 upgrade delegates to
an external converter, out of scope); `prettier.format` is an external
formatter, modelled as the identity. `st` is the module-level state the run
starts from (fresh in a fresh process). -/
def generate (fuel : Nat) (customBaseUrl : Option String) (st : GenState)
    (doc : OpenApiDocument) : Except GenError String := do
  defaultValidate doc
  let infoHeader := createInfoHeader doc
  let imports := createImports
  let rm := buildRefMap doc st.refMap
  let (schemaPairs, reg1) ← createTypesFromSchemas fuel rm doc st.createdTypeNames
  createTypesFromParameters doc
  let (rbPairs, reg2) ← createTypesFromRequestBodies fuel rm doc reg1
  createTypesFromResponses doc
  let requestFn := createRequestFunction doc customBaseUrl
  let (endpointStmts, _) ← createEndpoints fuel rm createEndpoint doc reg2
  let statements :=
    [infoHeader, imports]
      ++ schemaPairs.map (fun p => createTypeAlias p.1 p.2)
      ++ rbPairs.map (fun p => createTypeAlias p.1 p.2)
      ++ [requestFn]
      ++ endpointStmts
  .ok (String.intercalate "\n\n" statements)

/-- The identifiers of the top-level type aliases a successful run emits
(the names passed to `createTypeAlias` at statement level: one per component
schema and one per component request body). -/
def topLevelAliasNames (fuel : Nat) (st : GenState) (doc : OpenApiDocument) :
    Except GenError (List String) := do
  let rm := buildRefMap doc st.refMap
  let (schemaPairs, reg1) ← createTypesFromSchemas fuel rm doc st.createdTypeNames
  let (rbPairs, _) ← createTypesFromRequestBodies fuel rm doc reg1
  .ok (schemaPairs.map Prod.fst ++ rbPairs.map Prod.fst)

end OpenApiTs

namespace OpenApiTs

/-! ## Derived definitions used to state the claims -/

/-- Overwrite the five ignored keywords of the node itself, leaving every
other field (and all nested schemas) unchanged. -/
def Schema.setIgnoredKeywords (s : Schema) (d df ro wo x : Bool) : Schema :=
  match s with
  | .mk f => .mk { f with deprecated := d, defaultKw := df, readOnly := ro, writeOnly := wo, xml := x }

/-- Overwrite the `additionalProperties` member of the node. -/
def Schema.setAdditionalProperties (s : Schema) (ap : Option (Bool ⊕ Schema)) : Schema :=
  match s with
  | .mk f => .mk { f with additionalProperties := ap }

/-- The property-member computation of `createObjectType` (src/generate.js):
one member per declared property, marked required via the required-name set. -/
def objectPropertyMembers (fuel : Nat) (rm : RefMap) (props : List (String × Option Schema))
    (requiredL : List String) : Except GenError (List (String × List String)) :=
  props.mapM (fun p => createObjectTypeProperty fuel rm p.1 p.2 (requiredL.contains p.1))

/-- Status codes of the success group (claim C6 wording). -/
def isSuccessCode (code : String) : Bool := startsWithStr code "2"

/-- Status codes of the error group (claim C6 wording). -/
def isErrorCode (code : String) : Bool :=
  code = "default" || startsWithStr code "4" || startsWithStr code "5"

/-- Claim-side contribution of one response entry (C6 wording): an entry with
no content contributes the placeholder, an entry with content contributes one
compiled type per media-type schema. -/
def claimEntryMembers (fuel : Nat) (rm : RefMap) (placeholder : String) (resp : ResponseObject) :
    Except GenError (List String) :=
  match resp.content with
  | none => .ok [placeholder]
  | some cs => cs.mapM (fun c => (createTypeOpt fuel rm c.2.schema).map Prod.fst)

/-- Claim-side members of a response group (C6 wording). -/
def claimGroupMembers (fuel : Nat) (rm : RefMap) (placeholder : String) :
    List (String × ResponseObject) → Except GenError (List String)
  | [] => .ok []
  | e :: rest => do
    let ms ← claimEntryMembers fuel rm placeholder e.2
    let tail ← claimGroupMembers fuel rm placeholder rest
    .ok (ms ++ tail)

/-- Claim-side union of a response group (C6 wording): a group with no
members yields exactly the placeholder. -/
def claimUnion (members : List String) (placeholder : String) : String :=
  if members = [] then placeholder else createTypeUnion members

/-- Lookup of one property of one location group of `parametersByLocation`. -/
def glookup (groups : List (String × LocGroup)) (loc name : String) : Option (Option Schema) :=
  (groups.lookup loc).bind (fun g => g.properties.lookup name)

/-- The keys of a JavaScript-object-like association list are pairwise distinct. -/
def NodupKeys {α : Type} (l : List (String × α)) : Prop :=
  (l.map Prod.fst).Nodup

/-! ## Concrete documents and schemas used by counterexamples and witnesses -/

def strSchema : Schema := .mk { type := some "string" }
def intSchema : Schema := .mk { type := some "integer" }

/-- A component request body with one `application/json` media-type schema. -/
def rbFoo : RequestBodyLike :=
  .withContent [("application/json", { schema := some strSchema })]

/-- C1's failing input: a component request body `foo` plus an operation whose
request body is `{$ref: '#/components/requestBodies/foo'}`. -/
def docC1 : OpenApiDocument :=
  { openapi := some "3.0.0"
    info := { title := some "T", version := some "1.0" }
    paths := [("/x", { ops := [("post",
      { requestBody := some (.plain (.mk { ref := some "#/components/requestBodies/foo" })),
        responses := some [("200", {})] })] })]
    components := some { requestBodies := some [("foo", rbFoo)] } }

/-- C2's counterexample input: a component schema and a component request body
that are both named `foo`, so both reference-table entries normalize to `Foo`. -/
def docC2 : OpenApiDocument :=
  { openapi := some "3.0.0"
    info := { title := some "T", version := some "1.0" }
    paths := []
    components := some
      { schemas := some [("foo", strSchema)]
        requestBodies := some [("foo", rbFoo)] } }

/-- C8's witness input: two operations whose operation ids normalize to the
same identifier `ListPets`. -/
def docC8 : OpenApiDocument :=
  { openapi := some "3.0.0"
    info := { title := some "T", version := some "1.0" }
    paths := [("/pets", { ops :=
      [("get", { operationId := some "listPets", responses := some [("200", {})] }),
       ("post", { operationId := some "ListPets", responses := some [("200", {})] })] })] }

/-- C4's witness input: a small well-formed document. -/
def docC4 : OpenApiDocument :=
  { openapi := some "3.0.0"
    info := { title := some "Pets", version := some "1.0" }
    paths := [("/pets/\x7bid\x7d", { ops := [("get",
      { operationId := some "getPet"
        parameters := some [{ name := "id", location := "path", required := some true,
                              schema := some strSchema }]
        responses := some [("200",
          { content := some [("application/json", { schema := some strSchema })] })] })] })] }

/-- C5's counterexample: the same parameter name declared at path level (as a
string) and at operation level (as an integer), in the same location. -/
def pPathLevel : Param := { name := "id", location := "query", schema := some strSchema }
def pOpLevel : Param := { name := "id", location := "query", schema := some intSchema }

/-- C9's counterexample pair: removing the `xml` keyword from the nested
`additionalProperties` schema changes the compiled result, because the
emptiness test `Object.keys(schema.additionalProperties).length === 0` sees
the keyword. -/
def schemaC9With : Schema :=
  .mk { type := some "object", additionalProperties := some (.inr (.mk { xml := true })) }

def schemaC9Without : Schema :=
  .mk { type := some "object", additionalProperties := some (.inr (.mk {})) }

/-- C10's base schema: an object schema with no declared properties and
`additionalProperties: false`. -/
def schemaC10 : Schema :=
  .mk { type := some "object", additionalProperties := some (.inl false) }

/-- C3's counterexample: a schema with both `oneOf` and `not`. -/
def schemaC3 : Schema :=
  .mk { oneOf := some [strSchema], hasNot := true }

end OpenApiTs

namespace OpenApiTs

/-! ## General lemmas about the embedding's building blocks -/

theorem fs_setIgnoredKeywords (s : Schema) (d df ro wo x : Bool) :
    (s.setIgnoredKeywords d df ro wo x).fs =
      { s.fs with deprecated := d, defaultKw := df, readOnly := ro, writeOnly := wo, xml := x } := by
  cases s
  rfl

theorem fs_setAdditionalProperties (s : Schema) (ap : Option (Bool ⊕ Schema)) :
    (s.setAdditionalProperties ap).fs = { s.fs with additionalProperties := ap } := by
  cases s
  rfl

theorem map_fst_warnWrap (e : CompileResult) (w : List String) :
    (e.map (fun p => (p.1, w ++ p.2))).map Prod.fst = e.map Prod.fst := by
  cases e <;> rfl

theorem mapM_map_fst {α β γ : Type} (f : α → Except GenError (β × γ)) :
    ∀ l : List α, ((l.mapM f).map (List.map Prod.fst)) = l.mapM (fun a => (f a).map Prod.fst)
  | [] => rfl
  | a :: as => by
    have ih := mapM_map_fst f as
    rw [List.mapM_cons, List.mapM_cons, ← ih]
    cases ha : f a with
    | error e =>
      cases has : as.mapM f <;>
        simp [Except.map, Bind.bind, Except.bind, pure, Except.pure]
    | ok b =>
      cases has : as.mapM f <;>
        simp [Except.map, Bind.bind, Except.bind, pure, Except.pure]

theorem mapM_ok_pointwise {α β : Type} (f : α → Except GenError β) :
    ∀ (l : List α) (bs : List β), l.mapM f = .ok bs →
      bs.length = l.length ∧
        ∀ i (h : i < l.length) (h' : i < bs.length),
          f (l.get ⟨i, h⟩) = .ok (bs.get ⟨i, h'⟩)
  | [], bs, h => by
    simp only [List.mapM_nil, pure, Except.pure] at h
    cases h
    exact ⟨rfl, fun i h h' => by simp at h⟩
  | a :: as, bs, h => by
    rw [List.mapM_cons] at h
    cases ha : f a with
    | error e => rw [ha] at h; simp [Except.bind, Bind.bind, bind] at h
    | ok b =>
      rw [ha] at h
      cases has : as.mapM f with
      | error e =>
        rw [has] at h
        simp [Except.bind, Bind.bind, bind] at h
      | ok tail =>
        rw [has] at h
        simp only [Except.bind, Bind.bind, bind, pure, Except.pure] at h
        cases h
        obtain ⟨hlen, hget⟩ := mapM_ok_pointwise f as tail has
        refine ⟨by simp [hlen], ?_⟩
        intro i hi hi'
        cases i with
        | zero => simpa using ha
        | succ j =>
          simp only [List.length_cons] at hi hi'
          simp only [List.get_cons_succ]
          exact hget j (by omega) (by omega)

end OpenApiTs

namespace OpenApiTs

theorem objSet_lookup_self {α : Type} (k : String) (v : α) :
    ∀ l : List (String × α), (objSet l k v).lookup k = some v
  | [] => by simp [objSet, List.lookup_cons]
  | (k', v') :: rest => by
    by_cases h : k' = k
    · simp [objSet, h, List.lookup_cons]
    · simp only [objSet, if_neg h, List.lookup_cons]
      have : (k == k') = false := by
        simp only [beq_eq_false_iff_ne, ne_eq]
        exact fun hk => h hk.symm
      simp [this, objSet_lookup_self k v rest]

theorem objSet_lookup_ne {α : Type} (k : String) (v : α) (k' : String) (h : k' ≠ k) :
    ∀ l : List (String × α), (objSet l k v).lookup k' = l.lookup k'
  | [] => by
    have : (k' == k) = false := by simpa using h
    simp [objSet, List.lookup_cons, this]
  | (a, b) :: rest => by
    by_cases ha : a = k
    · subst ha
      have hne : (k' == a) = false := by simpa using h
      simp [objSet, List.lookup_cons, hne]
    · simp only [objSet, if_neg ha, List.lookup_cons]
      cases hak : (k' == a) with
      | true => simp
      | false => simp [objSet_lookup_ne k v k' h rest]

theorem objSet_mem {α : Type} {k : String} {v : α} {e : String × α} :
    ∀ {l : List (String × α)}, e ∈ objSet l k v → e = (k, v) ∨ e ∈ l
  | [], h => by simpa [objSet] using h
  | (a, b) :: rest, h => by
    by_cases ha : a = k
    · simp only [objSet, if_pos ha, List.mem_cons] at h
      rcases h with h | h
      · exact .inl h
      · exact .inr (List.mem_cons_of_mem _ h)
    · simp only [objSet, if_neg ha, List.mem_cons] at h
      rcases h with h | h
      · exact .inr (by simp [h])
      · rcases objSet_mem h with h' | h'
        · exact .inl h'
        · exact .inr (List.mem_cons_of_mem _ h')

theorem objSet_keys {α : Type} (k : String) (v : α) :
    ∀ l : List (String × α),
      (objSet l k v).map Prod.fst =
        if k ∈ l.map Prod.fst then l.map Prod.fst else l.map Prod.fst ++ [k]
  | [] => by simp [objSet]
  | (a, b) :: rest => by
    by_cases ha : a = k
    · simp [objSet, ha]
    · have hka : ¬ (k = a) := fun h => ha h.symm
      simp only [objSet, if_neg ha, List.map_cons, List.mem_cons]
      rw [objSet_keys k v rest]
      by_cases hk : k ∈ rest.map Prod.fst <;> simp [hk, hka]

theorem objSet_nodupKeys {α : Type} {l : List (String × α)} (k : String) (v : α)
    (h : NodupKeys l) : NodupKeys (objSet l k v) := by
  unfold NodupKeys at h ⊢
  rw [objSet_keys]
  by_cases hk : k ∈ l.map Prod.fst
  · simpa [hk]
  · simp only [hk, if_false]
    rw [List.nodup_append]
    exact ⟨h, List.nodup_singleton k, by simpa using hk⟩

theorem lookup_mem {α : Type} {k : String} {v : α} :
    ∀ {l : List (String × α)}, l.lookup k = some v → (k, v) ∈ l
  | [], h => by simp [List.lookup] at h
  | (a, b) :: rest, h => by
    rw [List.lookup_cons] at h
    cases hak : (k == a) with
    | true =>
      rw [hak] at h
      cases h
      have : k = a := by simpa using hak
      simp [this]
    | false =>
      rw [hak] at h
      exact List.mem_cons_of_mem _ (lookup_mem h)

theorem printWarnings_count (k : String) :
    ∀ (keys shown : List String),
      (printWarnings keys shown).count k ≤ 1 ∧
        (k ∈ shown → (printWarnings keys shown).count k = 0)
  | [], shown => by simp [printWarnings]
  | a :: ks, shown => by
    obtain ⟨ih1, ih2⟩ := printWarnings_count k ks (a :: shown)
    obtain ⟨jh1, jh2⟩ := printWarnings_count k ks shown
    by_cases hc : a ∈ shown
    · have hb : shown.contains a = true := by simpa using hc
      simp only [printWarnings, hb, if_true]
      exact ⟨jh1, fun hmem => jh2 hmem⟩
    · have hb : shown.contains a = false := by simpa using hc
      simp only [printWarnings, hb, Bool.false_eq_true, if_false]
      by_cases hak : a = k
      · subst hak
        have h0 : (printWarnings ks (a :: shown)).count a = 0 := ih2 (by simp)
        refine ⟨by simp [List.count_cons, h0], fun hmem => absurd hmem hc⟩
      · have hne : (a == k) = false := by simpa using hak
        refine ⟨by simpa [List.count_cons, hne] using ih1, fun hmem => ?_⟩
        have := ih2 (by simp [hmem])
        simpa [List.count_cons, hne] using this

end OpenApiTs

namespace OpenApiTs

theorem string_append_left_cancel {p a b : String} (h : p ++ a = p ++ b) : a = b := by
  cases p with
  | mk pd =>
    cases a with
    | mk ad =>
      cases b with
      | mk bd =>
        have hd : pd ++ ad = pd ++ bd := congrArg String.data h
        have := List.append_cancel_left hd
        simp [this]

theorem addRefEntries_cons (sec n : String) (ns : List String) (rm : RefMap) :
    addRefEntries sec (n :: ns) rm =
      addRefEntries sec ns
        (objSet rm ("#/components/" ++ sec ++ "/" ++ n) (createTypeIdentifier n "")) := by
  simp [addRefEntries]

theorem addRefEntries_lookup_preserve (sec : String) (key : String) :
    ∀ (names : List String) (rm : RefMap),
      (∀ n ∈ names, ("#/components/" ++ sec ++ "/" ++ n) ≠ key) →
      (addRefEntries sec names rm).lookup key = rm.lookup key
  | [], rm, _ => rfl
  | n :: ns, rm, h => by
    rw [addRefEntries_cons]
    rw [addRefEntries_lookup_preserve sec key ns _ (fun m hm => h m (List.mem_cons_of_mem _ hm))]
    exact objSet_lookup_ne _ _ key (fun hk => h n (by simp) hk.symm) rm

theorem addRefEntries_lookup (sec : String) :
    ∀ (names : List String) (rm : RefMap) (name : String), name ∈ names →
      (addRefEntries sec names rm).lookup ("#/components/" ++ sec ++ "/" ++ name)
        = some (createTypeIdentifier name "")
  | [], _, _, hmem => by simp at hmem
  | n :: ns, rm, name, hmem => by
    by_cases hns : name ∈ ns
    · rw [addRefEntries_cons]
      exact addRefEntries_lookup sec ns _ name hns
    · have hn : name = n := by
        rcases List.mem_cons.mp hmem with h | h
        · exact h
        · exact absurd h hns
      subst hn
      rw [addRefEntries_cons]
      rw [addRefEntries_lookup_preserve sec _ ns _ ?_]
      · exact objSet_lookup_self _ _ rm
      · intro m hm hkey
        have : m = name :=
          string_append_left_cancel
            (p := "#/components/" ++ sec ++ "/") (a := m) (b := name)
            (by simpa [String.append_assoc] using hkey)
        exact hns (this ▸ hm)

end OpenApiTs

namespace OpenApiTs

theorem map_fst_wrap_eq (e : CompileResult) (w w' : List String) :
    ((e.map (fun p => (p.1, w ++ p.2))).map Prod.fst)
      = ((e.map (fun p => (p.1, w' ++ p.2))).map Prod.fst) := by
  cases e <;> rfl

/-- The `switch (schema.type)` dispatch never reads the five ignored keywords
of the node itself. -/
theorem createTypeSwitch_flags (k : Nat) (rm : RefMap)
    (ref : Option String) (ao ay oo : Option (List Schema)) (hn di : Bool)
    (dep dfl ro wo x dep' dfl' ro' wo' x' : Bool)
    (ty fmt : Option String) (en : Option (List String)) (nul : Bool)
    (it : Option Schema) (props : Option (List (String × Option Schema)))
    (req : Option (List String)) (ap : Option (Bool ⊕ Schema)) :
    createTypeSwitch k rm (.mk ⟨ref, ao, ay, oo, hn, di, dep, dfl, ro, wo, x, ty, fmt, en, nul, it, props, req, ap⟩)
      = createTypeSwitch k rm (.mk ⟨ref, ao, ay, oo, hn, di, dep', dfl', ro', wo', x', ty, fmt, en, nul, it, props, req, ap⟩) := by
  cases k with
  | zero => rfl
  | succ m =>
    rw [createTypeSwitch, createTypeSwitch]
    simp only [Schema.fs]
    rcases ty with _ | t
    · rfl
    · by_cases h1 : t = "array"
      · subst h1
        cases m <;> rfl
      · by_cases h2 : t = "object"
        · subst h2
          cases m <;> rfl
        · split <;> try simp_all
          all_goals rfl

/-- Setting or clearing the five ignored keywords on the node being compiled
never changes the compiled type expression (it only changes the warn calls). -/
theorem createType_setIgnored (fuel : Nat) (rm : RefMap) (s : Schema) (d df ro wo x : Bool) :
    (createType fuel rm (s.setIgnoredKeywords d df ro wo x)).map Prod.fst
      = (createType fuel rm s).map Prod.fst := by
  cases fuel with
  | zero => rfl
  | succ n =>
    cases s with
    | mk f =>
      simp only [Schema.setIgnoredKeywords]
      rw [createType, createType]
      rcases f with ⟨ref, allOf, anyOf, oneOf, hasNot, disc, dep, dfl, ro', wo', x', ty, fmt, en, nul, it, props, req, ap⟩
      simp only [Schema.fs, isRefSchema, jsTruthyS]
      split <;> try rfl
      split <;> try rfl
      split <;> try rfl
      split <;> try rfl
      split <;> try rfl
      split <;> try rfl
      rw [createTypeSwitch_flags n rm ref allOf anyOf oneOf hasNot disc d df ro wo x dep dfl ro' wo' x' ty fmt en nul it props req ap]
      exact map_fst_wrap_eq _ _ _

end OpenApiTs

namespace OpenApiTs

/-- A successful `createTypeName` records the identifier, so reserving any
source name that normalizes to the same identifier immediately afterwards
fails with the duplicate error. -/
theorem createTypeName_duplicate_after (reg reg' : Registry) (s1 suf1 s2 suf2 n : String)
    (h : createTypeName s1 suf1 reg = .ok (n, reg'))
    (hid : createTypeIdentifier s2 suf2 = n) :
    createTypeName s2 suf2 reg' = .error (.duplicate n s2) := by
  unfold createTypeName at h ⊢
  by_cases hc : reg.contains (createTypeIdentifier s1 suf1) = true
  · rw [if_pos hc] at h
    exact absurd h (by simp)
  · rw [if_neg hc] at h
    injection h with h1
    rw [Prod.mk.injEq] at h1
    obtain ⟨hn, hr⟩ := h1
    subst hn
    subst hr
    simp only [hid]
    simp [List.contains_cons]

/-- C10: an object schema with no declared properties and
`additionalProperties` equal to `false`, `true`, or the empty schema compiles
to the unconstrained dictionary, with the same warn calls. -/
theorem c10_value (fuel : Nat) (rm : RefMap) (f : SchemaF Schema)
    (href : jsTruthyS f.ref = false) (hall : f.allOf = none) (hany : f.anyOf = none)
    (hnot : f.hasNot = false) (hone : f.oneOf = none) (hdis : f.discriminator = false)
    (htype : f.type = some "object") (hprops : f.properties.getD [] = [])
    (hnul : f.nullable = false)
    (hap : f.additionalProperties = some (.inl false) ∨
           f.additionalProperties = some (.inl true) ∨
           f.additionalProperties = some (.inr (.mk {}))) :
    createType (fuel + 3) rm (.mk f)
      = .ok ("Record<string, unknown>",
          (if f.deprecated then ["deprecated"] else []) ++
            (if f.defaultKw then ["default"] else [])) := by
  rw [createType]
  simp only [Schema.fs, isRefSchema, jsTruthyS] at href ⊢
  simp only [href, hall, hany, hnot, hone, hdis]
  rw [createTypeSwitch]
  simp only [Schema.fs, htype]
  rw [createObjectType]
  rcases hap with hap | hap | hap <;>
    (simp only [Schema.fs, hap]
     rcases hpp : f.properties with _ | l
     · simp [Except.map, Except.bind, nullWrap, hnul, Schema.keyCount, Schema.fs]
     · rw [hpp] at hprops
       simp only [Option.getD_some] at hprops
       subst hprops
       simp [List.mapM.loop, Except.map, Except.bind, nullWrap, hnul, pure, Except.pure,
             Schema.keyCount, Schema.fs])

end OpenApiTs

namespace OpenApiTs

/-- C10: for every object schema with no declared properties and
`additionalProperties: false`, the compiler returns the unconstrained
dictionary `Record<string, unknown>`, identical to the result for
`additionalProperties: true` and for an empty-object `additionalProperties`
schema: boolean `false` is not distinguished, because `Object.keys(false)` is
empty. -/
theorem c10_additionalProperties_false (fuel : Nat) (rm : RefMap) (s : Schema)
    (href : isRefSchema s = false) (hall : s.fs.allOf = none) (hany : s.fs.anyOf = none)
    (hnot : s.fs.hasNot = false) (hone : s.fs.oneOf = none) (hdis : s.fs.discriminator = false)
    (htype : s.fs.type = some "object") (hprops : s.fs.properties.getD [] = [])
    (hnul : s.fs.nullable = false)
    (hap : s.fs.additionalProperties = some (.inl false)) :
    (createType (fuel + 3) rm s).map Prod.fst = .ok "Record<string, unknown>" ∧
    createType (fuel + 3) rm s
      = createType (fuel + 3) rm (s.setAdditionalProperties (some (.inl true))) ∧
    createType (fuel + 3) rm s
      = createType (fuel + 3) rm (s.setAdditionalProperties (some (.inr (.mk {})))) := by
  cases s with
  | mk f =>
    have h1 := c10_value fuel rm f href hall hany hnot hone hdis htype hprops hnul (Or.inl hap)
    have h2 := c10_value fuel rm { f with additionalProperties := some (.inl true) }
      href hall hany hnot hone hdis htype hprops hnul (Or.inr (Or.inl rfl))
    have h3 := c10_value fuel rm { f with additionalProperties := some (.inr (.mk {})) }
      href hall hany hnot hone hdis htype hprops hnul (Or.inr (Or.inr rfl))
    refine ⟨by rw [h1]; rfl, ?_, ?_⟩
    · rw [h1]
      simp only [Schema.setAdditionalProperties]
      rw [h2]
    · rw [h1]
      simp only [Schema.setAdditionalProperties]
      rw [h3]

/-- C10 witness: the concrete schema `{type: "object", additionalProperties: false}`. -/
theorem c10_witness :
    (createType 3 [] schemaC10).map Prod.fst = .ok "Record<string, unknown>" ∧
    createType 3 [] schemaC10
      = createType 3 [] (schemaC10.setAdditionalProperties (some (.inl true))) ∧
    createType 3 [] schemaC10
      = createType 3 [] (schemaC10.setAdditionalProperties (some (.inr (.mk {})))) :=
  c10_additionalProperties_false 0 [] schemaC10 rfl rfl rfl rfl rfl rfl rfl rfl rfl rfl

/-- C9 counterexample: removing the `xml` keyword from the nested
`additionalProperties` schema changes the compiled type expression (an
`Unknown scalar type undefined.` failure becomes `Record<string, unknown>`),
so "compiling with the keyword removed yields the same type expression" fails. -/
theorem c9_counterexample :
    (createType 9 [] schemaC9With).map Prod.fst = .error (.unknownScalar "undefined") ∧
    (createType 9 [] schemaC9Without).map Prod.fst = .ok "Record<string, unknown>" ∧
    (createType 9 [] schemaC9With).map Prod.fst
      ≠ (createType 9 [] schemaC9Without).map Prod.fst := by
  have h1 : (createType 9 [] schemaC9With).map Prod.fst
      = .error (.unknownScalar "undefined") := rfl
  have h2 : (createType 9 [] schemaC9Without).map Prod.fst
      = .ok "Record<string, unknown>" := rfl
  exact ⟨h1, h2, by rw [h1, h2]; exact fun h => Except.noConfusion h⟩

/-- C9 (amended): the five ignored keywords on the node being compiled never
change its compiled type expression; the warn gate prints every keyword at
most once per run; and a keyword occurrence can trigger no warning at all
(`xml` on a string schema sits at a position `createType` never checks). -/
theorem c9_ignored_keyword_semantics :
    (∀ (fuel : Nat) (rm : RefMap) (s : Schema) (d df ro wo x : Bool),
        (createType fuel rm (s.setIgnoredKeywords d df ro wo x)).map Prod.fst
          = (createType fuel rm s).map Prod.fst) ∧
    (∀ (keys : List String) (k : String), (printWarnings keys []).count k ≤ 1) ∧
    createType 9 [] (.mk { type := some "string", xml := true }) = .ok ("string", []) :=
  ⟨createType_setIgnored, fun keys k => (printWarnings_count k keys []).1, rfl⟩

/-- C3 counterexample: a schema carrying both `oneOf` and `not` raises
UnsupportedKeyword instead of compiling to the OR-join of the `oneOf`
members, because `not` is checked before `oneOf`. -/
theorem c3_counterexample :
    createType 9 [] schemaC3 = .error (.unsupported "not") := rfl

/-- C3 (amended): the cases apply in the source order reference, `allOf`,
`anyOf`, `not`, `oneOf`, discriminator. An `anyOf` schema compiles to the
OR-join even when `not` or a discriminator is present; a `oneOf` schema does
so only when `not` is absent (a discriminator does not interfere); and with
`anyOf` absent, a present `not` raises UnsupportedKeyword regardless of
`oneOf`. -/
theorem c3_decision_order (fuel : Nat) (rm : RefMap) (s : Schema) (l : List Schema)
    (href : isRefSchema s = false) (hall : s.fs.allOf = none) :
    (s.fs.anyOf = some l →
      createType (fuel + 1) rm s = joinTypes " | " <$> l.mapM (createType fuel rm)) ∧
    (s.fs.anyOf = none → s.fs.hasNot = false → s.fs.oneOf = some l →
      createType (fuel + 1) rm s = joinTypes " | " <$> l.mapM (createType fuel rm)) ∧
    (s.fs.anyOf = none → s.fs.hasNot = true →
      createType (fuel + 1) rm s = .error (.unsupported "not")) := by
  refine ⟨fun hany => ?_, fun hany hnot hone => ?_, fun hany hnot => ?_⟩ <;>
    (rw [createType]; simp [href, hall, *])

/-- C3 witness: a schema with `anyOf`, `not` and a discriminator still
compiles to the OR-join of the `anyOf` members. -/
theorem c3_witness :
    createType 2 [] (.mk { anyOf := some [strSchema], hasNot := true, discriminator := true })
      = joinTypes " | " <$> [strSchema].mapM (createType 1 []) :=
  (c3_decision_order 1 []
    (.mk { anyOf := some [strSchema], hasNot := true, discriminator := true })
    [strSchema] rfl rfl).1 rfl

/-- C4: runs that both start from fresh internal state (empty identifier
registry, empty reference table, cleared warning set) return identical output
text for the same document. -/
theorem c4_fresh_state_determinism (fuel : Nat) (customBaseUrl : Option String)
    (doc : OpenApiDocument) (s1 s2 : GenState)
    (h1 : s1 = GenState.fresh) (h2 : s2 = GenState.fresh) :
    generate fuel customBaseUrl s1 doc = generate fuel customBaseUrl s2 doc := by
  subst h1
  subst h2
  rfl

/-- C4 witness: two fresh runs on a concrete document agree (and succeed). -/
theorem c4_witness :
    generate 9 none GenState.fresh docC4 = generate 9 none GenState.fresh docC4 ∧
    (generate 9 none GenState.fresh docC4).isOk = true :=
  ⟨c4_fresh_state_determinism 9 none docC4 GenState.fresh GenState.fresh rfl rfl, rfl⟩

/-- C1: on `docC1` the run completes successfully, the reference table
resolves `#/components/requestBodies/foo` to `Foo`, a compiled `$ref`
occurrence therefore produces the identifier `Foo`, but the only emitted
top-level type alias is `FooRequestBody` — the resolved identifier is not
declared by any emitted top-level alias. -/
theorem c1_requestBody_alias_mismatch :
    (generate 9 none GenState.fresh docC1).isOk = true ∧
    (buildRefMap docC1 []).lookup "#/components/requestBodies/foo" = some "Foo" ∧
    createType 9 (buildRefMap docC1 [])
      (.mk { ref := some "#/components/requestBodies/foo" }) = .ok ("Foo", []) ∧
    topLevelAliasNames 9 GenState.fresh docC1 = .ok ["FooRequestBody"] ∧
    ¬ ("Foo" ∈ ["FooRequestBody"]) :=
  ⟨rfl, rfl, rfl, rfl, by simp⟩

/-- C2 counterexample: the component schema `foo` and the component request
body `foo` both normalize to the table identifier `Foo`, yet table
construction does not fail — the whole run completes successfully (the two
aliases are reserved later as `Foo` and `FooRequestBody`). -/
theorem c2_counterexample :
    createTypeIdentifier "foo" "" = "Foo" ∧
    (buildRefMap docC2 []).lookup "#/components/schemas/foo" = some "Foo" ∧
    (buildRefMap docC2 []).lookup "#/components/requestBodies/foo" = some "Foo" ∧
    (generate 9 none GenState.fresh docC2).isOk = true :=
  ⟨rfl, rfl, rfl, rfl⟩

/-- C2 (amended): building the reference table is a pure fold over the four
component sections that records `path ↦ normalized identifier` for every
entry; it reserves nothing through the Identifier Registry and cannot fail,
so colliding identifiers are not detected at table-construction time. -/
theorem c2_table_records_without_reserving (doc : OpenApiDocument) (comps : Components)
    (rm : RefMap) (h : doc.components = some comps) :
    buildRefMap doc rm =
      addRefEntries "responses" (comps.responses.getD [])
        (addRefEntries "requestBodies" ((comps.requestBodies.getD []).map Prod.fst)
          (addRefEntries "parameters" (comps.parameters.getD [])
            (addRefEntries "schemas" ((comps.schemas.getD []).map Prod.fst) rm))) ∧
    (∀ (sec : String) (names : List String) (rm' : RefMap) (name : String), name ∈ names →
        (addRefEntries sec names rm').lookup ("#/components/" ++ sec ++ "/" ++ name)
          = some (createTypeIdentifier name "")) := by
  constructor
  · simp [buildRefMap, h]
  · intro sec names rm' name hmem
    exact addRefEntries_lookup sec names rm' name hmem

/-- C2 witness: the amended statement applied to `docC2`'s schemas section. -/
theorem c2_amended_witness :
    (addRefEntries "schemas" ["foo"] []).lookup ("#/components/" ++ "schemas" ++ "/" ++ "foo")
      = some (createTypeIdentifier "foo" "") :=
  (c2_table_records_without_reserving docC2
      { schemas := some [("foo", strSchema)], requestBodies := some [("foo", rbFoo)] }
      [] rfl).2 "schemas" ["foo"] [] "foo" (List.mem_singleton.mpr rfl)

/-- C8: a reservation whose computed identifier is already present fails with
the duplicate error; after any successful reservation, reserving any source
name that normalizes to the same identifier fails; operation-derived names
(explicit operation id, or the `{method}{path}` fallback) go through the same
`createTypeName` registry, so two operations normalizing to the same
identifier collide; and on `docC8` the whole run aborts with
DuplicateIdentifier. -/
theorem c8_identifier_uniqueness :
    (∀ (reg : Registry) (s suffix : String),
        reg.contains (createTypeIdentifier s suffix) = true →
        createTypeName s suffix reg = .error (.duplicate (createTypeIdentifier s suffix) s)) ∧
    (∀ (reg reg' : Registry) (s1 suf1 s2 suf2 n : String),
        createTypeName s1 suf1 reg = .ok (n, reg') →
        createTypeIdentifier s2 suf2 = n →
        createTypeName s2 suf2 reg' = .error (.duplicate n s2)) ∧
    (∀ (reg reg' : Registry) (op1 op2 : Operation) (m1 p1 m2 p2 n : String),
        createTypeName (opNameOf op1 m1 p1) "" reg = .ok (n, reg') →
        createTypeIdentifier (opNameOf op2 m2 p2) "" = n →
        createTypeName (opNameOf op2 m2 p2) "" reg' = .error (.duplicate n (opNameOf op2 m2 p2))) ∧
    generate 9 none GenState.fresh docC8 = .error (.duplicate "ListPets" "ListPets") := by
  refine ⟨?_, ?_, ?_, rfl⟩
  · intro reg s suffix h
    unfold createTypeName
    rw [if_pos h]
  · intro reg reg' s1 suf1 s2 suf2 n h hid
    exact createTypeName_duplicate_after reg reg' s1 suf1 s2 suf2 n h hid
  · intro reg reg' op1 op2 m1 p1 m2 p2 n h hid
    exact createTypeName_duplicate_after reg reg' (opNameOf op1 m1 p1) "" (opNameOf op2 m2 p2) "" n h hid

/-- C8 witness: the two colliding operation ids of `docC8`. -/
theorem c8_witness :
    createTypeName "listPets" "" ["ListPets"]
      = .error (.duplicate "ListPets" "listPets") ∧
    createTypeName (opNameOf { operationId := some "ListPets" } "post" "/pets") "" ["ListPets"]
      = .error (.duplicate "ListPets" (opNameOf { operationId := some "ListPets" } "post" "/pets")) :=
  ⟨c8_identifier_uniqueness.1 ["ListPets"] "listPets" "" rfl,
   c8_identifier_uniqueness.2.2.1 [] ["ListPets"]
     { operationId := some "listPets" } { operationId := some "ListPets" }
     "get" "/pets" "post" "/pets" "ListPets" rfl rfl⟩

end OpenApiTs

namespace OpenApiTs

/-- A successfully compiled object property member is the quoted name, the
`?` marker exactly when not required, a colon, and the member's type. -/
theorem createObjectTypeProperty_shape (fuel : Nat) (rm : RefMap) (name : String)
    (psch : Option Schema) (r : Bool) (res : String × List String)
    (h : createObjectTypeProperty fuel rm name psch r = .ok res) :
    ∃ t, res.1 = "\"" ++ name ++ "\"" ++ (if r then "" else "?") ++ ": " ++ t := by
  cases fuel with
  | zero => exact absurd h (by simp [createObjectTypeProperty])
  | succ n =>
    cases psch with
    | none => exact absurd h (by simp [createObjectTypeProperty])
    | some p =>
      rw [createObjectTypeProperty] at h
      cases hc : createType n rm p with
      | error e => rw [hc] at h; exact absurd h (by simp [Except.map])
      | ok q =>
        rw [hc] at h
        simp only [Except.map, Except.ok.injEq] at h
        exact ⟨q.1, by rw [← h]⟩

/-- C7: for an object schema with declared properties (and no
`additionalProperties`), the compiled object consists of exactly the members
computed by `objectPropertyMembers`, one per declared property in order, and
the member for a property is emitted in required form (no `?`) precisely when
its name appears in the schema's required-name list; with no required list
(`required` absent, so the set defaults to empty) every member is optional. -/
theorem c7_required_membership (fuel : Nat) (rm : RefMap) (s : Schema)
    (props : List (String × Option Schema)) (reqOpt : Option (List String))
    (ms : List (String × List String))
    (hprops : s.fs.properties = some props) (hreq : s.fs.required = reqOpt)
    (hap : s.fs.additionalProperties = none)
    (hm : objectPropertyMembers fuel rm props (reqOpt.getD []) = .ok ms) :
    createObjectType (fuel + 1) rm s
      = .ok (nullWrap s.fs.nullable
          ("\x7b" ++ "\n" ++ String.intercalate "," (ms.map Prod.fst) ++ "\n" ++ "\x7d"),
         (ms.map Prod.snd).flatten) ∧
    ms.length = props.length ∧
    (∀ i (h : i < props.length) (h' : i < ms.length),
      ∃ t, (ms.get ⟨i, h'⟩).1
        = "\"" ++ (props.get ⟨i, h⟩).1 ++ "\""
            ++ (if (reqOpt.getD []).contains (props.get ⟨i, h⟩).1 then "" else "?")
            ++ ": " ++ t) ∧
    (reqOpt = none → ∀ name : String, (reqOpt.getD []).contains name = false) := by
  obtain ⟨hlen, hpt⟩ := mapM_ok_pointwise _ props ms hm
  refine ⟨?_, hlen, ?_, ?_⟩
  · rw [createObjectType]
    simp only [hprops, hreq, hap]
    rw [show props.mapM (fun p => createObjectTypeProperty fuel rm p.1 p.2
          ((reqOpt.getD []).contains p.1)) = .ok ms from hm]
    rfl
  · intro i h h'
    have := hpt i h h'
    exact createObjectTypeProperty_shape fuel rm _ _ _ _ this
  · intro h name
    subst h
    rfl

/-- C7 witness: `{type: "object", properties: {id: integer, tag: string},
required: ["id"]}` makes `id` required and `tag` optional. -/
theorem c7_witness :
    createObjectType 9 [] (.mk
      { type := some "object"
        properties := some [("id", some intSchema), ("tag", some strSchema)]
        required := some ["id"] })
      = .ok ("\x7b" ++ "\n" ++ "\"id\": number,\"tag\"?: string" ++ "\n" ++ "\x7d", []) ∧
    (∃ t, ("\"id\": number", ([] : List String)).1
      = "\"" ++ "id" ++ "\"" ++ (if (List.contains ["id"] "id") then "" else "?") ++ ": " ++ t) := by
  have h := c7_required_membership 8 [] (.mk
      { type := some "object"
        properties := some [("id", some intSchema), ("tag", some strSchema)]
        required := some ["id"] })
    [("id", some intSchema), ("tag", some strSchema)] (some ["id"])
    [("\"id\": number", []), ("\"tag\"?: string", [])] rfl rfl rfl rfl
  exact ⟨by simpa using h.1, h.2.2.1 0 (by simp) (by simp)⟩

end OpenApiTs

namespace OpenApiTs

/-- Projecting one response entry's source contribution onto its type strings
gives the claim-side entry members. -/
theorem except_map_comp {α β γ : Type} (e : Except GenError α) (f : α → β) (g : β → γ) :
    (e.map f).map g = e.map (fun a => g (f a)) := by
  cases e <;> rfl

theorem except_map_congr {α β : Type} {e : Except GenError α} {f g : α → β}
    (h : ∀ a, f a = g a) : e.map f = e.map g := by
  cases e <;> simp [Except.map, h]

/-- Projecting one response entry's source contribution onto its type strings
gives the claim-side entry members. -/
theorem srcEntry_proj (fuel : Nat) (rm : RefMap) (ph : String) (r : ResponseObject) :
    ((match r.content with
      | none => (pure [(ph, [])] : Except GenError (List (String × List String)))
      | some cs => cs.mapM (fun (c : String × MediaObject) => createTypeOpt fuel rm c.2.schema)).map
        (List.map Prod.fst))
      = claimEntryMembers fuel rm ph r := by
  rcases hr : r.content with _ | cs
  · simp [claimEntryMembers, hr, pure, Except.pure, Except.map]
  · simp only [claimEntryMembers, hr]
    exact mapM_map_fst _ cs

/-- The source's mapM-then-flatten members, projected onto their type strings,
are the claim-side group members. -/
theorem group_members_eq (fuel : Nat) (rm : RefMap) (ph : String) :
    ∀ l : List (String × ResponseObject),
      ((l.mapM (fun (p : String × ResponseObject) =>
          (match p.2.content with
            | none => pure [(ph, [])]
            | some cs => cs.mapM (fun (c : String × MediaObject) => createTypeOpt fuel rm c.2.schema) :
            Except GenError (List (String × List String))))).map
        (fun xs => (List.flatten xs).map Prod.fst))
        = claimGroupMembers fuel rm ph l
  | [] => rfl
  | e :: rest => by
    have hA := srcEntry_proj fuel rm ph e.2
    have ih := group_members_eq fuel rm ph rest
    rw [List.mapM_cons]
    simp only [claimGroupMembers]
    rw [← hA, ← ih]
    cases he : (match e.2.content with
      | none => pure [(ph, [])]
      | some cs => cs.mapM (fun (c : String × MediaObject) => createTypeOpt fuel rm c.2.schema) :
      Except GenError (List (String × List String))) with
    | error er => simp [Except.map, Bind.bind, Except.bind]
    | ok msE =>
      cases hrest : rest.mapM (fun (p : String × ResponseObject) =>
          (match p.2.content with
            | none => pure [(ph, [])]
            | some cs => cs.mapM (fun (c : String × MediaObject) => createTypeOpt fuel rm c.2.schema) :
            Except GenError (List (String × List String)))) with
      | error er => simp [Except.map, Bind.bind, Except.bind, pure, Except.pure]
      | ok tl => simp [Except.map, Bind.bind, Except.bind, pure, Except.pure]

/-- The source's length-test union equals the claim-side empty-test union. -/
theorem union_pointwise (ph : String) (succ : List (String × List String)) :
    createTypeUnion (if succ.isEmpty then [ph] else succ.map Prod.fst)
      = claimUnion (succ.map Prod.fst) ph := by
  cases succ with
  | nil => rfl
  | cons a l => simp [claimUnion, createTypeUnion]

/-- C6: response grouping. The source's `Response.Success` / `Response.Error`
computation refines the claim's description: entries are grouped by status
code (`2xx` success; `default`/`4xx`/`5xx` error); an entry with no content
contributes the placeholder (`void` / `unknown`), an entry with content
contributes one compiled type per media-type schema; the group members are
joined into one union, and an empty group yields exactly the placeholder. -/
theorem c6_response_grouping (fuel : Nat) (rm : RefMap)
    (rs : List (String × ResponseObject)) :
    (successUnionOf fuel rm rs
      = (claimGroupMembers fuel rm "void" (rs.filter (fun p => isSuccessCode p.1))).map
          (fun ms => claimUnion ms "void")) ∧
    (errorUnionOf fuel rm rs
      = (claimGroupMembers fuel rm "unknown" (rs.filter (fun p => isErrorCode p.1))).map
          (fun ms => claimUnion ms "unknown")) ∧
    (rs.filter (fun p => isSuccessCode p.1) = [] → successUnionOf fuel rm rs = .ok "void") ∧
    (rs.filter (fun p => isErrorCode p.1) = [] → errorUnionOf fuel rm rs = .ok "unknown") := by
  have hs : successUnionOf fuel rm rs
      = (claimGroupMembers fuel rm "void" (rs.filter (fun p => isSuccessCode p.1))).map
          (fun ms => claimUnion ms "void") := by
    rw [successUnionOf, successResponsesOf]
    simp only [isSuccessCode]
    rw [← group_members_eq fuel rm "void" (rs.filter (fun p => startsWithStr p.1 "2"))]
    rw [except_map_comp, except_map_comp]
    exact except_map_congr (fun xs => union_pointwise "void" xs.flatten)
  have he : errorUnionOf fuel rm rs
      = (claimGroupMembers fuel rm "unknown" (rs.filter (fun p => isErrorCode p.1))).map
          (fun ms => claimUnion ms "unknown") := by
    rw [errorUnionOf, errorResponsesOf]
    simp only [isErrorCode]
    rw [← group_members_eq fuel rm "unknown"
      (rs.filter (fun p => p.1 = "default" || startsWithStr p.1 "4" || startsWithStr p.1 "5"))]
    rw [except_map_comp, except_map_comp]
    exact except_map_congr (fun xs => union_pointwise "unknown" xs.flatten)
  refine ⟨hs, he, ?_, ?_⟩
  · intro hempty
    rw [hs, hempty]
    rfl
  · intro hempty
    rw [he, hempty]
    rfl

/-- C6 witness: a responses map with one `200` entry without content and no
error entry compiles `Success` to `void` and `Error` to `unknown`. -/
theorem c6_witness :
    successUnionOf 9 [] [("200", ({} : ResponseObject))]
      = (claimGroupMembers 9 [] "void"
          ([("200", ({} : ResponseObject))].filter (fun p => isSuccessCode p.1))).map
          (fun ms => claimUnion ms "void") ∧
    errorUnionOf 9 [] [("200", ({} : ResponseObject))] = .ok "unknown" := by
  have h := c6_response_grouping 9 [] [("200", ({} : ResponseObject))]
  exact ⟨h.1, h.2.2.2 rfl⟩

end OpenApiTs

namespace OpenApiTs

theorem glookup_addParam (groups : List (String × LocGroup)) (p : Param) (loc name : String) :
    glookup (addParam groups p) loc name
      = if p.location = loc ∧ p.name = name then some p.schema else glookup groups loc name := by
  unfold glookup addParam
  by_cases hloc : p.location = loc
  · subst hloc
    rw [objSet_lookup_self]
    simp only [Option.some_bind]
    by_cases hname : p.name = name
    · subst hname
      rw [objSet_lookup_self]
      simp
    · rw [objSet_lookup_ne _ _ _ (fun h => hname h.symm)]
      simp only [hname, and_false, if_false]
      cases hg : groups.lookup p.location with
      | none => simp [hg]
      | some g => simp [hg]
  · rw [objSet_lookup_ne _ _ _ (fun h => hloc h.symm)]
    simp [hloc]

theorem getLast?_cons_some {α : Type} (a : α) {l : List α} {q : α}
    (h : l.getLast? = some q) : (a :: l).getLast? = some q := by
  cases l with
  | nil => simp at h
  | cons b t => rw [List.getLast?_cons_cons]; exact h

theorem getLast?_none {α : Type} : ∀ {l : List α}, l.getLast? = none → l = []
  | [], _ => rfl
  | b :: t, h => by
    cases t with
    | nil => simp at h
    | cons c u =>
      rw [List.getLast?_cons_cons] at h
      exact absurd (getLast?_none h) (by simp)

theorem glookup_foldl (loc name : String) :
    ∀ (ps : List Param) (acc : List (String × LocGroup)),
      glookup (ps.foldl addParam acc) loc name
        = match (ps.filter (fun p => p.location == loc && p.name == name)).getLast? with
          | some q => some q.schema
          | none => glookup acc loc name
  | [], acc => by simp
  | p :: ps, acc => by
    rw [List.foldl_cons, glookup_foldl loc name ps (addParam acc p), glookup_addParam]
    by_cases hmatch : p.location = loc ∧ p.name = name
    · have hf : (p.location == loc && p.name == name) = true := by
        simp [hmatch.1, hmatch.2]
      rw [List.filter_cons_of_pos (by simpa using hf)]
      cases hlast : (ps.filter (fun p => p.location == loc && p.name == name)).getLast? with
      | some q => rw [getLast?_cons_some p hlast]
      | none =>
        rw [getLast?_none hlast]
        simp [hmatch]
    · have hf : (p.location == loc && p.name == name) = false := by
        by_cases h1 : p.location = loc
        · by_cases h2 : p.name = name
          · exact absurd ⟨h1, h2⟩ hmatch
          · simp [h2]
        · simp [h1]
      rw [List.filter_cons_of_neg (by simp [hf])]
      simp [hmatch]

theorem addParam_nodup {acc : List (String × LocGroup)}
    (h : ∀ e ∈ acc, NodupKeys e.2.properties) (p : Param) :
    ∀ e ∈ addParam acc p, NodupKeys e.2.properties := by
  intro e he
  unfold addParam at he
  rcases objSet_mem he with rfl | he'
  · apply objSet_nodupKeys
    cases hg : acc.lookup p.location with
    | none => simp [hg, NodupKeys, LocGroup.properties]
    | some g0 => simpa [hg] using h _ (lookup_mem hg)
  · exact h _ he'

theorem foldl_nodup :
    ∀ (ps : List Param) (acc : List (String × LocGroup)),
      (∀ e ∈ acc, NodupKeys e.2.properties) →
      ∀ e ∈ ps.foldl addParam acc, NodupKeys e.2.properties
  | [], acc, h => h
  | p :: ps, acc, h => by
    rw [List.foldl_cons]
    exact foldl_nodup ps (addParam acc p) (addParam_nodup h p)

/-- C5 counterexample: the same name at both levels for the same location
collapses to one emitted member, typed by the operation-level (later) schema:
the group's property record holds a single `id` entry with the integer
schema, and the compiled object type has exactly one member, `"id": number` -
not both members. -/
theorem c5_counterexample :
    buildGroups [pPathLevel, pOpLevel]
      = [("query", { required := ["id", "id"], properties := [("id", some intSchema)] })] ∧
    (createType 9 []
        (groupSchema { required := ["id", "id"], properties := [("id", some intSchema)] })).map
        Prod.fst
      = .ok ("\x7b" ++ "\n" ++ "\"id\": number" ++ "\n" ++ "\x7d") ∧
    (((buildGroups [pPathLevel, pOpLevel]).lookup "query").getD {}).properties.length = 1 :=
  ⟨rfl, rfl, rfl⟩

/-- C5 (amended): path-level and operation-level parameters are concatenated
(path level first, no deduplication) and grouped by location into a property
record with JavaScript assignment semantics: for any location and name, the
recorded schema is the one of the **last** matching parameter in the
concatenated list (so an operation-level parameter overwrites a path-level
one of the same name and location), and every group's property record has
pairwise-distinct names, so exactly one member is emitted per name. -/
theorem c5_parameter_merging (shared opParams : List Param) (loc name : String) :
    (glookup (buildGroups (shared ++ opParams)) loc name
      = match ((shared ++ opParams).filter
            (fun p => p.location == loc && p.name == name)).getLast? with
        | some q => some q.schema
        | none => none) ∧
    (∀ g, (buildGroups (shared ++ opParams)).lookup loc = some g → NodupKeys g.properties) := by
  constructor
  · rw [buildGroups, glookup_foldl]
    cases hx : ((shared ++ opParams).filter
        (fun p => p.location == loc && p.name == name)).getLast? <;> rfl
  · intro g hg
    exact foldl_nodup (shared ++ opParams) [] (by simp) (loc, g) (lookup_mem hg)

/-- C5 witness: the amended statement at the counterexample input - the
operation-level integer schema wins and the group keys are duplicate-free. -/
theorem c5_witness :
    (glookup (buildGroups ([pPathLevel] ++ [pOpLevel])) "query" "id"
      = match (([pPathLevel] ++ [pOpLevel]).filter
            (fun p => p.location == "query" && p.name == "id")).getLast? with
        | some q => some q.schema
        | none => none) ∧
    NodupKeys ((({ required := ["id", "id"], properties := [("id", some intSchema)] } :
        LocGroup)).properties) :=
  ⟨(c5_parameter_merging [pPathLevel] [pOpLevel] "query" "id").1,
   (c5_parameter_merging [pPathLevel] [pOpLevel] "query" "id").2
     { required := ["id", "id"], properties := [("id", some intSchema)] } rfl⟩

end OpenApiTs
